import Mathlib

/-!
Verification of the URL Threat Analysis Engine of the PhishingDetection
repository (`backend/features/url_analyzer_simple.py`).

The Python module is embedded shallowly: its reference registries become
Lean lists, its pure functions become Lean functions on `String`/`List Char`,
risk weights become naturals counted in hundredths of the source's float
weights (an exact rescaling: `0.15` is `15`, the final clamp at `1.0` is a
clamp at `100`), and the single fallible step (URL parsing) becomes an
`Except`-valued function.  The shipped source file's non-ASCII
literals were mangled in transit (UTF-8 bytes re-decoded as cp1252); the
definitions below use the intended codepoints, recovered by inverting that
re-encoding (e.g. `'а'` is CYRILLIC SMALL LETTER A, U+0430).
-/

/-- The trusted-domain registry `POPULAR_DOMAINS`, in source order. -/
def POPULAR_DOMAINS : List String := [
  "google.com", "facebook.com", "amazon.com", "netflix.com", "paypal.com",
  "apple.com", "microsoft.com", "github.com", "linkedin.com", "twitter.com",
  "instagram.com", "dropbox.com", "yahoo.com", "gmail.com", "outlook.com",
  "chase.com", "bankofamerica.com", "wellsfargo.com", "citibank.com",
  "usbank.com", "coinbase.com", "binance.com", "spotify.com", "adobe.com",
  "zoom.us", "slack.com", "ebay.com", "walmart.com", "target.com",
  "bestbuy.com", "uber.com", "lyft.com", "airbnb.com", "booking.com",
  "whatsapp.com", "telegram.org", "discord.com", "twitch.tv", "reddit.com",
  "steam.com", "steamcommunity.com", "office.com", "live.com", "icloud.com",
  "docusign.com", "dhl.com", "fedex.com", "ups.com", "usps.com",
  "americanexpress.com", "discover.com", "capitalone.com", "schwab.com",
  "fidelity.com", "vanguard.com", "robinhood.com", "venmo.com", "zelle.com"]

/-- The brand-token registry `BRAND_NAMES`, in source order. -/
def BRAND_NAMES : List String := [
  "google", "facebook", "amazon", "netflix", "paypal", "apple", "microsoft",
  "github", "linkedin", "twitter", "instagram", "dropbox", "yahoo", "gmail",
  "outlook", "chase", "bankofamerica", "wellsfargo", "citibank", "coinbase",
  "binance", "spotify", "adobe", "zoom", "slack", "ebay", "walmart", "uber",
  "airbnb", "whatsapp", "telegram", "discord", "twitch", "reddit", "steam",
  "office", "icloud", "docusign", "dhl", "fedex", "ups", "usps", "amex",
  "capitalone", "schwab", "fidelity", "vanguard", "robinhood", "venmo", "zelle"]

/-- The confusable-character map `CONFUSABLE_CHARS` as an association list in
source order (Python dict lookup on distinct keys agrees with `List.lookup`;
the one repeated key `ẏ` carries the same value both times). -/
def CONFUSABLE_CHARS : List (Char × Char) := [
  ('а', 'a'), ('е', 'e'), ('о', 'o'), ('р', 'p'), ('с', 'c'), ('у', 'y'),
  ('х', 'x'), ('і', 'i'), ('ј', 'j'), ('ѕ', 's'), ('ԁ', 'd'), ('ԛ', 'q'),
  ('ԝ', 'w'), ('ɡ', 'g'), ('ʀ', 'r'), ('ɴ', 'n'), ('ᴍ', 'm'), ('ᴋ', 'k'),
  ('ᴠ', 'v'), ('ᴢ', 'z'), ('ь', 'b'), ('ҝ', 'k'), ('ɑ', 'a'), ('ε', 'e'),
  ('α', 'a'), ('β', 'b'), ('γ', 'y'), ('ν', 'v'), ('ο', 'o'), ('ρ', 'p'),
  ('τ', 't'), ('υ', 'u'), ('χ', 'x'), ('ω', 'w'),
  ('0', 'o'), ('1', 'l'), ('!', 'i'), ('$', 's'), ('3', 'e'), ('4', 'a'),
  ('5', 's'), ('8', 'b'), ('@', 'a'), ('7', 't'), ('9', 'g'), ('2', 'z'),
  ('ı', 'i'), ('ɩ', 'i'), ('ł', 'l'), ('ɫ', 'l'), ('ʟ', 'l'), ('ṃ', 'm'),
  ('ṇ', 'n'), ('ṅ', 'n'), ('ṛ', 'r'), ('ṣ', 's'), ('ṭ', 't'), ('ṿ', 'v'),
  ('ẉ', 'w'), ('ẏ', 'y'), ('ẓ', 'z'), ('ḃ', 'b'), ('ḋ', 'd'), ('ḟ', 'f'),
  ('ḣ', 'h'), ('ṁ', 'm'), ('ṗ', 'p'), ('ṡ', 's'), ('ṫ', 't'), ('ẇ', 'w'),
  ('ẋ', 'x'), ('ẏ', 'y')]

/-- The `suspicious_keywords` list of `URLAnalyzer.__init__`, in source order. -/
def suspicious_keywords : List String := [
  "secure", "account", "login", "verify", "banking", "update", "confirm",
  "ebay", "paypal", "amazon", "netflix", "credit", "card", "password",
  "suspended", "blocked", "urgent", "immediate", "action", "required",
  "signin", "sign-in", "authenticate", "wallet", "recovery", "unlock"]

/-- The `suspicious_tlds` list of `URLAnalyzer.__init__`, in source order. -/
def suspicious_tlds : List String := [
  ".tk", ".ml", ".ga", ".cf", ".info", ".biz", ".work", ".click",
  ".download", ".win", ".review", ".top", ".loan", ".trade", ".zip",
  ".mov", ".xyz", ".icu", ".buzz", ".site", ".online", ".live"]

/-- Python substring test `pat in s` (contiguous substring). -/
def strContains (s pat : String) : Bool :=
  s.data.tails.any (fun t => pat.data.isPrefixOf t)

/-- Python `s.split(sep)` for a one-character separator, on character lists. -/
def splitOnChar (sep : Char) : List Char → List (List Char)
  | [] => [[]]
  | c :: cs =>
      let r := splitOnChar sep cs
      if c = sep then [] :: r else (c :: r.headD []) :: r.tail

/-- Python `s.split(sep)` for a one-character separator. -/
def pySplit (s : String) (sep : Char) : List String :=
  (splitOnChar sep s.data).map String.mk

/-- Python `sep.join(parts)` for a one-character separator. -/
def pyJoin (sep : Char) (parts : List String) : String :=
  String.mk ((parts.map String.data).intersperse [sep]).flatten

/-- Python `s.startswith(p)`. -/
def startsWithStr (s p : String) : Bool :=
  p.data.isPrefixOf s.data

/-- Python `s.endswith(p)`. -/
def endsWithStr (s p : String) : Bool :=
  p.data.isSuffixOf s.data

/-- Fuel-driven worker for `removeAll`. -/
def removeAllGo (pat : List Char) : Nat → List Char → List Char
  | 0, l => l
  | Nat.succ fuel, l =>
      match l with
      | [] => []
      | c :: cs =>
          if pat.isPrefixOf (c :: cs) ∧ pat ≠ [] then
            removeAllGo pat fuel ((c :: cs).drop pat.length)
          else c :: removeAllGo pat fuel cs

/-- Python `s.replace(pat, '')` for a nonempty pattern: delete every
left-to-right non-overlapping occurrence of `pat`. -/
def removeAll (pat l : List Char) : List Char :=
  removeAllGo pat l.length l

/-- One character of CPython `str.lower()`, as the list of characters it maps
to.  The model covers the scripts this analyzer manipulates: ASCII letters,
the Latin-1 uppercase range, LATIN CAPITAL LETTER I WITH DOT ABOVE (whose
lowercase is the two-character sequence `i` + COMBINING DOT ABOVE, the one
length-changing case in these ranges), and the Cyrillic and Greek uppercase
ranges.  Characters outside these ranges are returned unchanged. -/
def pyLowerChar (c : Char) : List Char :=
  if 'A' ≤ c ∧ c ≤ 'Z' then [Char.ofNat (c.toNat + 32)]
  else if c = 'İ' then ['i', Char.ofNat 0x0307]
  else if Char.ofNat 0xC0 ≤ c ∧ c ≤ Char.ofNat 0xDE ∧ c ≠ Char.ofNat 0xD7 then
    [Char.ofNat (c.toNat + 0x20)]
  else if Char.ofNat 0x400 ≤ c ∧ c ≤ Char.ofNat 0x40F then [Char.ofNat (c.toNat + 0x50)]
  else if Char.ofNat 0x410 ≤ c ∧ c ≤ Char.ofNat 0x42F then [Char.ofNat (c.toNat + 0x20)]
  else if Char.ofNat 0x391 ≤ c ∧ c ≤ Char.ofNat 0x3AB ∧ c ≠ Char.ofNat 0x3A2 then
    [Char.ofNat (c.toNat + 0x20)]
  else [c]

/-- CPython `str.lower()` under the character model of `pyLowerChar`. -/
def pyLower (s : String) : String :=
  String.mk (s.data.map pyLowerChar).flatten

/-- `URLAnalyzer._normalize_confusables`: lowercase the text, then replace each
character by its `CONFUSABLE_CHARS` image when present. -/
def normalize_confusables (text : String) : String :=
  String.mk ((pyLower text).data.map (fun c => (CONFUSABLE_CHARS.lookup c).getD c))

/-- Inner loop of the Levenshtein row computation: Python's
`for j, c2 in enumerate(s2)` with `cur` the last entry of `current_row`
and the list argument the tail of `previous_row` starting at index `j`. -/
def levNewRowGo (c1 : Char) : List Char → Nat → List Nat → List Nat
  | c2 :: cs, cur, pj :: rest =>
      let v := min (rest.headD 0 + 1) (min (cur + 1) (pj + (if c1 = c2 then 0 else 1)))
      v :: levNewRowGo c1 cs v rest
  | _, _, _ => []

/-- One row update of the Levenshtein dynamic program: `current_row` built from
`previous_row` for source character `c1`. -/
def levNewRow (c1 : Char) (s2 : List Char) (prev : List Nat) : List Nat :=
  (prev.headD 0 + 1) :: levNewRowGo c1 s2 (prev.headD 0 + 1) prev

/-- The dynamic program of `_calculate_levenshtein_distance` once arguments are
ordered so that `s1` is at least as long as `s2`. -/
def levCore (s1 s2 : List Char) : Nat :=
  if s2.length = 0 then s1.length
  else (s1.foldl (fun prev c1 => levNewRow c1 s2 prev) (List.range (s2.length + 1))).getLastD 0

/-- `URLAnalyzer._calculate_levenshtein_distance`. -/
def calculate_levenshtein_distance (s1 s2 : List Char) : Nat :=
  if s1.length < s2.length then levCore s2 s1 else levCore s1 s2

/-- First dot-separated label: Python `s.split('.')[0]`. -/
def primaryLabel (s : String) : String :=
  (pySplit s '.').headD s

/-- The bare label `_detect_typosquatting` compares:
`domain.split('.')[0] if '.' in domain else domain`. -/
def typoDomainName (domain : String) : String :=
  if domain.data.contains '.' then (pySplit domain '.').headD domain else domain

/-- A typosquat match: Python dict `{target_domain, distance, type}`. -/
structure TypoMatch where
  target_domain : String
  distance : Nat
  type : String
deriving DecidableEq, Repr

/-- `URLAnalyzer._identify_typosquat_type`. -/
def identify_typosquat_type (typo_domain real_domain : String) : String :=
  if typo_domain.length > real_domain.length then "character_insertion"
  else if typo_domain.length < real_domain.length then "character_omission"
  else
    let diff_positions :=
      ((typo_domain.data.zip real_domain.data).enum.filter (fun p => p.2.1 ≠ p.2.2)).map (·.1)
    match diff_positions with
    | [i, j] =>
        if Nat.dist i j = 1 ∧ typo_domain.data.getD i ' ' = real_domain.data.getD j ' ' ∧
            typo_domain.data.getD j ' ' = real_domain.data.getD i ' ' then
          "character_transposition"
        else "character_substitution"
    | _ => "character_substitution"

/-- The registry loop of `_detect_typosquatting`.  Returns `none` when the loop
hit the `domain == popular` early `return None`, and `some best` when the loop
ran to completion with `best` the minimum-distance match found (Python's
`best_match`, whose distance equals `min_distance` whenever it is set). -/
def typoLoop (domain domain_name : String) :
    List String → Option TypoMatch → Option (Option TypoMatch)
  | [], best => some best
  | popular :: rest, best =>
      if domain = popular then none
      else
        let popular_name := primaryLabel popular
        let distance := calculate_levenshtein_distance domain_name.data popular_name.data
        let best' :=
          if distance ≤ 2 ∧ 0 < distance then
            match best with
            | none => some ⟨popular, distance, identify_typosquat_type domain_name popular_name⟩
            | some b =>
                if distance < b.distance then
                  some ⟨popular, distance, identify_typosquat_type domain_name popular_name⟩
                else best
          else best
        typoLoop domain domain_name rest best'

/-- `URLAnalyzer._detect_typosquatting`. -/
def detect_typosquatting (domain : String) : Option TypoMatch :=
  let domain_name := typoDomainName domain
  match typoLoop domain domain_name POPULAR_DOMAINS none with
  | none => none
  | some best =>
      let normalized_domain := normalize_confusables domain_name
      if normalized_domain ≠ domain_name then
        match POPULAR_DOMAINS.find? (fun popular => normalized_domain == primaryLabel popular) with
        | some popular => some ⟨popular, 0, "character_substitution"⟩
        | none => best
      else best

/-- A homograph finding: Python dict `{confusable_chars, normalized_domain,
matched_brand, is_mixed_script}`; each recorded confusable is
`(position, original, looks_like)`. -/
structure HomographFinding where
  confusable_chars : List (Nat × Char × Char)
  normalized_domain : String
  matched_brand : Option String
  is_mixed_script : Bool
deriving DecidableEq, Repr

/-- `URLAnalyzer._has_mixed_scripts`. -/
def has_mixed_scripts (text : String) : Bool :=
  let has_latin := text.data.any (fun c => decide (('a' ≤ c ∧ c ≤ 'z') ∨ ('A' ≤ c ∧ c ≤ 'Z')))
  let has_cyrillic := text.data.any (fun c => decide (Char.ofNat 0x400 ≤ c ∧ c ≤ Char.ofNat 0x4FF))
  let has_greek := text.data.any (fun c => decide (Char.ofNat 0x370 ≤ c ∧ c ≤ Char.ofNat 0x3FF))
  decide (((if has_latin then 1 else 0) + (if has_cyrillic then 1 else 0)
    + (if has_greek then 1 else 0) : Nat) > 1)

/-- The per-character scan of `_detect_homograph_attack`: every character of
the domain that is a key of `CONFUSABLE_CHARS`, with position and image. -/
def confusableScan (domain : String) : List (Nat × Char × Char) :=
  domain.data.enum.filterMap (fun p =>
    match CONFUSABLE_CHARS.lookup p.2 with
    | some canon => some (p.1, p.2, canon)
    | none => none)

/-- `URLAnalyzer._detect_homograph_attack`. -/
def detect_homograph_attack (domain : String) : Option HomographFinding :=
  let confusable_found := confusableScan domain
  if confusable_found.isEmpty then none
  else
    let normalized := normalize_confusables ((pySplit domain '.').headD domain)
    let matched_brand := POPULAR_DOMAINS.find? (fun popular => normalized == primaryLabel popular)
    some ⟨confusable_found, normalized, matched_brand, has_mixed_scripts domain⟩

/-- An impersonation finding: Python dict `{brand_in_subdomain, brand_in_path,
deceptive_pattern}`.  A `brand_in_subdomain` entry is `(brand, subdomain)`; a
`brand_in_path` entry is `(brand, context)` with context `"path"` or
`"domain_fragment"`. -/
structure ImpersonationFinding where
  brand_in_subdomain : List (String × String)
  brand_in_path : List (String × String)
  deceptive_pattern : Option String
deriving DecidableEq, Repr

/-- The regex `(secure|login|account|verify|update)[-.]` of the deceptive
pattern table, as a substring test. -/
def matchesSecurityKeyword (s : String) : Bool :=
  ["secure", "login", "account", "verify", "update"].any
    (fun w => strContains s (w ++ "-") || strContains s (w ++ "."))

/-- The regex `[-.]com[-.]` of the deceptive pattern table. -/
def matchesFakeTld (s : String) : Bool :=
  ["-com-", "-com.", ".com-", ".com."].any (fun p => strContains s p)

/-- The regex `(signin|sign-in|log-in|login)\.(php|html|asp)` of the deceptive
pattern table. -/
def matchesLoginPage (s : String) : Bool :=
  ["signin", "sign-in", "log-in", "login"].any (fun w =>
    ["php", "html", "asp"].any (fun e => strContains s (w ++ "." ++ e)))

/-- The `deceptive_patterns` loop: the first pattern (in table order) that
matches the lowercased URL, if any. -/
def firstDeceptivePattern (s : String) : Option String :=
  if matchesSecurityKeyword s then some "security_keyword_prefix"
  else if matchesFakeTld s then some "fake_tld_in_subdomain"
  else if matchesLoginPage s then some "login_page_pattern"
  else if strContains s "@" then some "at_symbol_redirect"
  else none

/-- `URLAnalyzer._detect_brand_impersonation`. -/
def detect_brand_impersonation (url domain path : String) : Option ImpersonationFinding :=
  let domain_parts := pySplit domain '.'
  let brand_in_subdomain :=
    if domain_parts.length > 2 then
      (domain_parts.take (domain_parts.length - 2)).flatMap (fun subdomain =>
        (BRAND_NAMES.filter (fun brand => strContains (pyLower subdomain) brand)).map
          (fun brand => (brand, subdomain)))
    else []
  let base_domain :=
    if domain_parts.length ≥ 2 then pyJoin '.' (domain_parts.drop (domain_parts.length - 2))
    else domain
  let is_legitimate := POPULAR_DOMAINS.contains base_domain
  let brand_in_path :=
    if is_legitimate then []
    else
      BRAND_NAMES.flatMap (fun brand =>
        (if strContains (pyLower path) brand then [(brand, "path")] else []) ++
        (if strContains (pyLower base_domain) brand ∧
            ¬ strContains ((pySplit base_domain '.').headD base_domain) brand then
          [(brand, "domain_fragment")]
        else []))
  let deceptive_pattern := firstDeceptivePattern (pyLower url)
  if brand_in_subdomain.isEmpty ∧ brand_in_path.isEmpty ∧ deceptive_pattern = none then none
  else some ⟨brand_in_subdomain, brand_in_path, deceptive_pattern⟩

/-- The feature dictionary built by `analyze_url` (the `result` dict). -/
structure UrlFeatures where
  url : String
  domain : String
  base_domain : String
  url_length : Nat
  has_https : Bool
  has_ip_address : Bool
  has_at_symbol : Bool
  has_redirect : Bool
  has_hyphen : Bool
  has_port : Bool
  has_dot_in_path : Bool
  has_underscore : Bool
  has_double_slash : Bool
  has_equals_sign : Bool
  has_ampersand : Bool
  suspicious_keywords : List String
  suspicious_tld : Bool
  subdomain_count : Nat
  typosquatting_info : Option TypoMatch
  homograph_info : Option HomographFinding
  brand_impersonation_info : Option ImpersonationFinding
  is_punycode : Bool
  risk_score : Nat
  risk_factors : List String
deriving DecidableEq, Repr

/-- URL-length weight tier of `_calculate_risk_score`, in hundredths (the
source's float weight `0.15` is `15` here; every weight in this file uses the
same exact rescaling, and the final clamp at `1.0` becomes a clamp at `100`). -/
def lenW (url_length : Nat) : Nat :=
  if url_length > 100 then 15 else if url_length > 75 then 8 else 0

/-- URL-length factor string of `_calculate_risk_score`. -/
def lenF (url_length : Nat) : List String :=
  if url_length > 100 then ["Very long URL (>100 chars)"]
  else if url_length > 75 then ["Long URL (>75 chars)"]
  else []

/-- Missing-HTTPS weight. -/
def httpsW (has_https : Bool) : Nat := if has_https then 0 else 10

/-- Missing-HTTPS factor string. -/
def httpsF (has_https : Bool) : List String :=
  if has_https then [] else ["No HTTPS encryption"]

/-- IP-literal-host weight. -/
def ipW (b : Bool) : Nat := if b then 30 else 0

/-- IP-literal-host factor string. -/
def ipF (b : Bool) : List String :=
  if b then ["IP address used instead of domain name"] else []

/-- `@`-symbol weight. -/
def atW (b : Bool) : Nat := if b then 25 else 0

/-- `@`-symbol factor string. -/
def atF (b : Bool) : List String :=
  if b then ["Contains @ symbol (potential redirect)"] else []

/-- Redirect-marker weight. -/
def redirW (b : Bool) : Nat := if b then 15 else 0

/-- Redirect-marker factor string. -/
def redirF (b : Bool) : List String :=
  if b then ["Contains redirect pattern (//)"] else []

/-- Hyphen-in-domain weight. -/
def hyphW (b : Bool) : Nat := if b then 5 else 0

/-- Hyphen-in-domain factor string. -/
def hyphF (b : Bool) : List String := if b then ["Hyphen in domain"] else []

/-- Underscore-in-domain weight. -/
def undW (b : Bool) : Nat := if b then 8 else 0

/-- Underscore-in-domain factor string. -/
def undF (b : Bool) : List String := if b then ["Underscore in domain"] else []

/-- Suspicious-path weight (`has_dot_in_path or has_double_slash`). -/
def pathW (dot dbl : Bool) : Nat := if dot || dbl then 10 else 0

/-- Suspicious-path factor string. -/
def pathF (dot dbl : Bool) : List String :=
  if dot || dbl then ["Suspicious path pattern"] else []

/-- Suspicious-keyword weight: `min(0.20, hits * 0.04)`, only when the hit
list is nonempty. -/
def kwW (kws : List String) : Nat :=
  if kws.isEmpty then 0 else min 20 (kws.length * 4)

/-- Suspicious-keyword factor string (first three hits). -/
def kwF (kws : List String) : List String :=
  if kws.isEmpty then []
  else ["Suspicious keywords: " ++ String.intercalate ", " (kws.take 3)]

/-- Suspicious-TLD weight. -/
def tldW (b : Bool) : Nat := if b then 15 else 0

/-- Suspicious-TLD factor string. -/
def tldF (b : Bool) : List String :=
  if b then ["Suspicious top-level domain"] else []

/-- Subdomain-count weight tier. -/
def subW (n : Nat) : Nat := if n > 3 then 15 else if n > 2 then 8 else 0

/-- Subdomain-count factor string. -/
def subF (n : Nat) : List String :=
  if n > 3 then ["Many subdomains (" ++ toString n ++ ")"]
  else if n > 2 then ["Multiple subdomains (" ++ toString n ++ ")"]
  else []

/-- Non-standard-port weight. -/
def portW (b : Bool) : Nat := if b then 10 else 0

/-- Non-standard-port factor string. -/
def portF (b : Bool) : List String :=
  if b then ["Non-standard port specified"] else []

/-- Punycode-marker weight. -/
def punyW (b : Bool) : Nat := if b then 20 else 0

/-- Punycode-marker factor string. -/
def punyF (b : Bool) : List String :=
  if b then ["Internationalized domain name (punycode)"] else []

/-- Typosquat weight tier: +0.40 when the match distance is at most 1,
else +0.30. -/
def typoW (o : Option TypoMatch) : Nat :=
  match o with
  | some t => if t.distance ≤ 1 then 40 else 30
  | none => 0

/-- Typosquat factor string. -/
def typoF (o : Option TypoMatch) : List String :=
  match o with
  | some t =>
      if t.distance ≤ 1 then
        ["TYPOSQUATTING: Very similar to " ++ t.target_domain ++ " (" ++ t.type ++ ")"]
      else ["TYPOSQUATTING: Similar to " ++ t.target_domain ++ " (" ++ t.type ++ ")"]
  | none => []

/-- Homograph weight tier: +0.50 on a brand match, +0.35 on mixed scripts,
else +0.25. -/
def homoW (o : Option HomographFinding) : Nat :=
  match o with
  | some h =>
      match h.matched_brand with
      | some _ => 50
      | none => if h.is_mixed_script then 35 else 25
  | none => 0

/-- Homograph factor string. -/
def homoF (o : Option HomographFinding) : List String :=
  match o with
  | some h =>
      match h.matched_brand with
      | some b => ["HOMOGRAPH ATTACK: Uses lookalike characters to impersonate " ++ b]
      | none =>
          if h.is_mixed_script then
            ["Mixed Unicode scripts detected (potential homograph attack)"]
          else ["Contains confusable Unicode characters"]
  | none => []

/-- Brand-in-subdomain weight. -/
def bsubW (o : Option ImpersonationFinding) : Nat :=
  match o with
  | some imp => if imp.brand_in_subdomain.isEmpty then 0 else 35
  | none => 0

/-- Brand-in-subdomain factor string. -/
def bsubF (o : Option ImpersonationFinding) : List String :=
  match o with
  | some imp =>
      if imp.brand_in_subdomain.isEmpty then []
      else ["BRAND IMPERSONATION: '"
        ++ String.intercalate ", " (imp.brand_in_subdomain.map (·.1)) ++ "' in subdomain"]
  | none => []

/-- Brand-in-path weight. -/
def bpathW (o : Option ImpersonationFinding) : Nat :=
  match o with
  | some imp => if imp.brand_in_path.isEmpty then 0 else 20
  | none => 0

/-- Brand-in-path factor string. -/
def bpathF (o : Option ImpersonationFinding) : List String :=
  match o with
  | some imp =>
      if imp.brand_in_path.isEmpty then []
      else ["Brand name in URL path: " ++ String.intercalate ", " (imp.brand_in_path.map (·.1))]
  | none => []

/-- Deceptive-pattern weight. -/
def decpW (o : Option ImpersonationFinding) : Nat :=
  match o with
  | some imp => match imp.deceptive_pattern with | some _ => 15 | none => 0
  | none => 0

/-- Deceptive-pattern factor string. -/
def decpF (o : Option ImpersonationFinding) : List String :=
  match o with
  | some imp =>
      match imp.deceptive_pattern with
      | some p => ["Deceptive URL pattern: " ++ p]
      | none => []
  | none => []

/-- `URLAnalyzer._calculate_risk_score`: the running sum and factor list are
threaded in the source's evaluation order; the sum is clamped to `1.0` once,
at the very end. -/
def calculate_risk_score (f : UrlFeatures) : Nat × List String :=
  let score : Nat := 0
  let risk_factors : List String := []
  let score := score + lenW f.url_length
  let risk_factors := risk_factors ++ lenF f.url_length
  let score := score + httpsW f.has_https
  let risk_factors := risk_factors ++ httpsF f.has_https
  let score := score + ipW f.has_ip_address
  let risk_factors := risk_factors ++ ipF f.has_ip_address
  let score := score + atW f.has_at_symbol
  let risk_factors := risk_factors ++ atF f.has_at_symbol
  let score := score + redirW f.has_redirect
  let risk_factors := risk_factors ++ redirF f.has_redirect
  let score := score + hyphW f.has_hyphen
  let risk_factors := risk_factors ++ hyphF f.has_hyphen
  let score := score + undW f.has_underscore
  let risk_factors := risk_factors ++ undF f.has_underscore
  let score := score + pathW f.has_dot_in_path f.has_double_slash
  let risk_factors := risk_factors ++ pathF f.has_dot_in_path f.has_double_slash
  let score := score + kwW f.suspicious_keywords
  let risk_factors := risk_factors ++ kwF f.suspicious_keywords
  let score := score + tldW f.suspicious_tld
  let risk_factors := risk_factors ++ tldF f.suspicious_tld
  let score := score + subW f.subdomain_count
  let risk_factors := risk_factors ++ subF f.subdomain_count
  let score := score + portW f.has_port
  let risk_factors := risk_factors ++ portF f.has_port
  let score := score + punyW f.is_punycode
  let risk_factors := risk_factors ++ punyF f.is_punycode
  let score := score + typoW f.typosquatting_info
  let risk_factors := risk_factors ++ typoF f.typosquatting_info
  let score := score + homoW f.homograph_info
  let risk_factors := risk_factors ++ homoF f.homograph_info
  let score := score + bsubW f.brand_impersonation_info
  let risk_factors := risk_factors ++ bsubF f.brand_impersonation_info
  let score := score + bpathW f.brand_impersonation_info
  let risk_factors := risk_factors ++ bpathF f.brand_impersonation_info
  let score := score + decpW f.brand_impersonation_info
  let risk_factors := risk_factors ++ decpF f.brand_impersonation_info
  (min 100 score, risk_factors)

/-- The plain (unclamped) sum of the weights of the triggered conditions. -/
def totalWeight (f : UrlFeatures) : Nat :=
  lenW f.url_length + httpsW f.has_https + ipW f.has_ip_address + atW f.has_at_symbol
    + redirW f.has_redirect + hyphW f.has_hyphen + undW f.has_underscore
    + pathW f.has_dot_in_path f.has_double_slash + kwW f.suspicious_keywords
    + tldW f.suspicious_tld + subW f.subdomain_count + portW f.has_port
    + punyW f.is_punycode + typoW f.typosquatting_info + homoW f.homograph_info
    + bsubW f.brand_impersonation_info + bpathW f.brand_impersonation_info
    + decpW f.brand_impersonation_info

/-- The sum of all triggered weights other than the typosquat tier. -/
def nonTypoWeight (f : UrlFeatures) : Nat :=
  lenW f.url_length + httpsW f.has_https + ipW f.has_ip_address + atW f.has_at_symbol
    + redirW f.has_redirect + hyphW f.has_hyphen + undW f.has_underscore
    + pathW f.has_dot_in_path f.has_double_slash + kwW f.suspicious_keywords
    + tldW f.suspicious_tld + subW f.subdomain_count + portW f.has_port
    + punyW f.is_punycode + homoW f.homograph_info
    + bsubW f.brand_impersonation_info + bpathW f.brand_impersonation_info
    + decpW f.brand_impersonation_info

/-- The factor list in evaluation order (the concatenation of the per-condition
factor strings). -/
def factorsList (f : UrlFeatures) : List String :=
  lenF f.url_length ++ httpsF f.has_https ++ ipF f.has_ip_address ++ atF f.has_at_symbol
    ++ redirF f.has_redirect ++ hyphF f.has_hyphen ++ undF f.has_underscore
    ++ pathF f.has_dot_in_path f.has_double_slash ++ kwF f.suspicious_keywords
    ++ tldF f.suspicious_tld ++ subF f.subdomain_count ++ portF f.has_port
    ++ punyF f.is_punycode ++ typoF f.typosquatting_info ++ homoF f.homograph_info
    ++ bsubF f.brand_impersonation_info ++ bpathF f.brand_impersonation_info
    ++ decpF f.brand_impersonation_info

/-- The scheme/netloc/path triple extracted by `urllib.parse.urlparse`. -/
structure ParsedUrl where
  scheme : String
  netloc : String
  path : String
deriving DecidableEq, Repr

/-- Models `urllib.parse.urlparse` on the inputs `analyze_url` feeds it —
strings beginning with `http://` or `https://` — including the
`ValueError("Invalid IPv6 URL")` raised when the authority contains an
unbalanced square bracket.  The query/fragment components, which the analyzer
never reads, are dropped after delimiting the path. -/
def urlparseHttp (url : String) : Except String ParsedUrl :=
  let scheme := if startsWithStr url "https://" then "https" else "http"
  let rest := String.mk (url.data.drop (scheme.length + 3))
  let netloc := String.mk (rest.data.takeWhile (fun c => !(c == '/' || c == '?' || c == '#')))
  if (netloc.data.contains '[') ≠ (netloc.data.contains ']') then
    Except.error "Invalid IPv6 URL"
  else
    let path := String.mk ((rest.data.drop netloc.length).takeWhile (fun c => !(c == '?' || c == '#')))
    Except.ok ⟨scheme, netloc, path⟩

/-- `URLAnalyzer._has_ip_address`: the regex
`^(\d{1,3}\.){3}\d{1,3}(:\d+)?$` applied to `domain.split(':')[0]` (so the
optional port group is vacuous), with `\d` restricted to ASCII digits. -/
def has_ip_address (domain : String) : Bool :=
  let host := (pySplit domain ':').headD domain
  match pySplit host '.' with
  | [a, b, c, d] =>
      [a, b, c, d].all (fun s => 1 ≤ s.length && s.length ≤ 3 && s.data.all Char.isDigit)
  | _ => false

/-- The scheme-prepend step of `analyze_url`: a string that does not start
with `http://` or `https://` gets `http://` prepended. -/
def withScheme (url : String) : String :=
  if startsWithStr url "http://" || startsWithStr url "https://" then url
  else "http://" ++ url

/-- The result of `analyze_url`: the feature dictionary on success, or the
`{'error': str(e), 'url': url}` dictionary when URL parsing raised. -/
inductive AnalyzeResult where
  | ok (features : UrlFeatures)
  | error (msg : String) (url : String)
deriving DecidableEq, Repr

/-- `URLAnalyzer.analyze_url`. -/
def analyze_url (url : String) : AnalyzeResult :=
  let url := withScheme url
  match urlparseHttp url with
  | Except.error e => AnalyzeResult.error e url
  | Except.ok parsed =>
      let domain := pyLower parsed.netloc
      let path := pyLower parsed.path
      let domain_parts := pySplit domain '.'
      let base_domain :=
        if domain_parts.length ≥ 2 then pyJoin '.' (domain_parts.drop (domain_parts.length - 2))
        else domain
      let f : UrlFeatures := {
        url := url
        domain := domain
        base_domain := base_domain
        url_length := url.length
        has_https := parsed.scheme == "https"
        has_ip_address := has_ip_address domain
        has_at_symbol := strContains url "@"
        has_redirect := strContains (String.mk (removeAll (parsed.scheme ++ "://").data url.data)) "//"
        has_hyphen := strContains domain "-"
        has_port := domain.data.contains ':' && !(endsWithStr domain ":80") && !(endsWithStr domain ":443")
        has_dot_in_path := strContains path "/."
        has_underscore := strContains domain "_"
        has_double_slash := strContains path "//"
        has_equals_sign := strContains path "="
        has_ampersand := strContains url "&"
        suspicious_keywords := suspicious_keywords.filter (fun kw => strContains (pyLower url) kw)
        suspicious_tld := suspicious_tlds.any (fun tld => endsWithStr domain tld)
        subdomain_count := if domain.data.contains '.' then domain.data.count '.' - 1 else 0
        typosquatting_info := detect_typosquatting base_domain
        homograph_info := detect_homograph_attack domain
        brand_impersonation_info := detect_brand_impersonation url domain path
        is_punycode := strContains (pyLower domain) "xn--"
        risk_score := 0
        risk_factors := [] }
      let sf := calculate_risk_score f
      AnalyzeResult.ok { f with risk_score := sf.1, risk_factors := sf.2 }

/-- Classifies a factor string by its first twelve characters, mapping it to
the position (in evaluation order) of the aggregator condition that can emit
it; distinct strings emitted by one condition tier share a position, and
strings no condition emits map to `99`. -/
def factorTag (s : String) : Nat :=
  let p := s.data.take 12
  if p = "Very long UR".data ∨ p = "Long URL (>7".data then 0
  else if p = "No HTTPS enc".data then 1
  else if p = "IP address u".data then 2
  else if p = "Contains @ s".data then 3
  else if p = "Contains red".data then 4
  else if p = "Hyphen in do".data then 5
  else if p = "Underscore i".data then 6
  else if p = "Suspicious p".data then 7
  else if p = "Suspicious k".data then 8
  else if p = "Suspicious t".data then 9
  else if p = "Many subdoma".data ∨ p = "Multiple sub".data then 10
  else if p = "Non-standard".data then 11
  else if p = "Internationa".data then 12
  else if p = "TYPOSQUATTIN".data then 13
  else if p = "HOMOGRAPH AT".data ∨ p = "Mixed Unicod".data ∨ p = "Contains con".data then 14
  else if p = "BRAND IMPERS".data then 15
  else if p = "Brand name i".data then 16
  else if p = "Deceptive UR".data then 17
  else 99

/-- Every string of the list has `factorTag` below `k`. -/
def TagUB (k : Nat) (l : List String) : Prop :=
  ∀ s ∈ l, factorTag s < k

/-- The list is strictly increasing under `factorTag`. -/
def TagSorted (l : List String) : Prop :=
  l.Pairwise (fun a b => factorTag a < factorTag b)

/-- A concrete feature record used to instantiate universally quantified
statements about the aggregator. -/
def sampleFeatures : UrlFeatures where
  url := "http://example.com"
  domain := "example.com"
  base_domain := "example.com"
  url_length := 18
  has_https := false
  has_ip_address := false
  has_at_symbol := false
  has_redirect := false
  has_hyphen := false
  has_port := false
  has_dot_in_path := false
  has_underscore := false
  has_double_slash := false
  has_equals_sign := false
  has_ampersand := false
  suspicious_keywords := []
  suspicious_tld := false
  subdomain_count := 0
  typosquatting_info := none
  homograph_info := none
  brand_impersonation_info := none
  is_punycode := false
  risk_score := 0
  risk_factors := []

/-- Whether an analysis result is a feature record (as opposed to the error
record produced when URL parsing raised). -/
def isOkResult : AnalyzeResult → Bool
  | AnalyzeResult.ok _ => true
  | AnalyzeResult.error _ _ => false

/-- The feature record `analyze_url` produces for `https://www.google.com`. -/
def googleFeatures : UrlFeatures where
  url := "https://www.google.com"
  domain := "www.google.com"
  base_domain := "google.com"
  url_length := 22
  has_https := true
  has_ip_address := false
  has_at_symbol := false
  has_redirect := false
  has_hyphen := false
  has_port := false
  has_dot_in_path := false
  has_underscore := false
  has_double_slash := false
  has_equals_sign := false
  has_ampersand := false
  suspicious_keywords := []
  suspicious_tld := false
  subdomain_count := 1
  typosquatting_info := none
  homograph_info := none
  brand_impersonation_info := none
  is_punycode := false
  risk_score := 0
  risk_factors := []

/-- The homograph field of a successful analysis, `none` on the error record. -/
def homographInfoOf : AnalyzeResult → Option (Option HomographFinding)
  | AnalyzeResult.ok f => some f.homograph_info
  | AnalyzeResult.error _ _ => none

/-- The IP-literal flag of a successful analysis, `none` on the error record. -/
def ipFlagOf : AnalyzeResult → Option Bool
  | AnalyzeResult.ok f => some f.has_ip_address
  | AnalyzeResult.error _ _ => none

/-! ## General lemmas about the embedding -/

/-- The sequential accumulation of `_calculate_risk_score` equals the plain
sum of the per-condition weights, clamped once at the end, paired with the
concatenation of the per-condition factor strings in evaluation order. -/
theorem calculate_risk_score_eq (f : UrlFeatures) :
    calculate_risk_score f = (min 100 (totalWeight f), factorsList f) := by
  simp [calculate_risk_score, totalWeight, factorsList]

/-- A domain that is literally a registry entry makes the typosquat loop take
the `domain == popular` early `return None`. -/
theorem typoLoop_of_mem (domain domain_name : String) :
    ∀ (ps : List String) (best : Option TypoMatch), domain ∈ ps →
      typoLoop domain domain_name ps best = none := by
  intro ps
  induction ps with
  | nil => intro best h; cases h
  | cons p rest ih =>
      intro best h
      by_cases hd : domain = p
      · simp [typoLoop, hd]
      · have : domain ∈ rest := by
          cases h with
          | head => exact absurd rfl hd
          | tail _ h => exact h
        simp only [typoLoop, if_neg hd]
        exact ih _ this

/-- If the candidate equals no registry entry, the typosquat loop runs to
completion. -/
theorem typoLoop_completes (domain domain_name : String) :
    ∀ (ps : List String) (best : Option TypoMatch), (∀ p ∈ ps, domain ≠ p) →
      ∃ b, typoLoop domain domain_name ps best = some b := by
  intro ps
  induction ps with
  | nil => intro best _; exact ⟨best, rfl⟩
  | cons p rest ih =>
      intro best h
      have hd : domain ≠ p := h p (by simp)
      simp only [typoLoop, if_neg hd]
      exact ih _ (fun q hq => h q (by simp [hq]))

/-- If every registry entry is at bare-label distance at least 3, the
typosquat loop never updates its accumulator. -/
theorem typoLoop_no_update (domain domain_name : String) :
    ∀ (ps : List String) (best : Option TypoMatch),
      (∀ p ∈ ps,
        3 ≤ calculate_levenshtein_distance domain_name.data (primaryLabel p).data) →
      typoLoop domain domain_name ps best = none ∨
        typoLoop domain domain_name ps best = some best := by
  intro ps
  induction ps with
  | nil => intro best _; exact Or.inr rfl
  | cons p rest ih =>
      intro best h
      by_cases hd : domain = p
      · exact Or.inl (by simp [typoLoop, hd])
      · have h3 := h p (by simp)
        simp only [typoLoop, if_neg hd]
        have hcond : ¬ (calculate_levenshtein_distance domain_name.data
            (primaryLabel p).data ≤ 2 ∧
            0 < calculate_levenshtein_distance domain_name.data (primaryLabel p).data) := by
          omega
        rw [if_neg hcond]
        exact ih _ (fun q hq => h q (by simp [hq]))

/-- A domain that is literally a registry entry yields no typosquat match. -/
theorem detect_typosquatting_of_mem (domain : String) (h : domain ∈ POPULAR_DOMAINS) :
    detect_typosquatting domain = none := by
  have hl := typoLoop_of_mem domain (typoDomainName domain) POPULAR_DOMAINS none h
  simp [detect_typosquatting, hl]

/-- On a successful analysis, the typosquat field is the detector applied to
the extracted base domain, and the risk score and factor list come from the
aggregator over the same feature record. -/
theorem analyze_url_ok_fields (url : String) (f : UrlFeatures)
    (h : analyze_url url = AnalyzeResult.ok f) :
    f.typosquatting_info = detect_typosquatting f.base_domain ∧
    f.risk_score = min 100 (totalWeight f) ∧ f.risk_factors = factorsList f := by
  cases hp : urlparseHttp (withScheme url) with
  | error e =>
      simp only [analyze_url, hp] at h
      exact AnalyzeResult.noConfusion h
  | ok parsed =>
      simp only [analyze_url, hp] at h
      cases h
      refine ⟨rfl, ?_, ?_⟩
      · show (calculate_risk_score _).1 = _
        rw [calculate_risk_score_eq]
        rfl
      · show (calculate_risk_score _).2 = _
        rw [calculate_risk_score_eq]
        rfl

/-! ## Claim theorems -/

/-- C1 (amended): `amaz0n.com` is detected against `amazon.com`, but through
the character-substitution branch, so with edit distance 0 (not 1) and type
`character_substitution`; it still contributes the higher +0.40 tier, which
covers every distance at most 1.  And every base domain whose bare label is at
Levenshtein distance at least 3 from the bare label of every registry entry,
and whose confusable-normalized bare label equals no registry bare label,
yields no typosquat match. -/
theorem typosquat_distance_boundary :
    (detect_typosquatting "amaz0n.com" =
        some ⟨"amazon.com", 0, "character_substitution"⟩ ∧
      typoW (detect_typosquatting "amaz0n.com") = 40) ∧
    ∀ d : String,
      (∀ p ∈ POPULAR_DOMAINS,
        3 ≤ calculate_levenshtein_distance (typoDomainName d).data (primaryLabel p).data) →
      (∀ p ∈ POPULAR_DOMAINS, normalize_confusables (typoDomainName d) ≠ primaryLabel p) →
      detect_typosquatting d = none := by
  refine ⟨⟨by decide, by decide⟩, ?_⟩
  intro d h3 hn
  have hf : POPULAR_DOMAINS.find? (fun popular =>
      normalize_confusables (typoDomainName d) == primaryLabel popular) = none := by
    apply List.find?_eq_none.2
    intro p hp
    simp [hn p hp]
  rcases typoLoop_no_update d (typoDomainName d) POPULAR_DOMAINS none h3 with h | h
  · simp [detect_typosquatting, h]
  · by_cases hch : normalize_confusables (typoDomainName d) ≠ typoDomainName d
    · simp [detect_typosquatting, h, hch, hf]
    · simp [detect_typosquatting, h, hch]

set_option maxRecDepth 20000 in
/-- C1 witness: a concrete domain satisfying the distance hypotheses. -/
theorem typosquat_distance_boundary_witness :
    detect_typosquatting "qqqqqqqq.net" = none :=
  typosquat_distance_boundary.2 "qqqqqqqq.net" (by decide) (by decide)

/-- C1 counterexample: on `amaz0n.com` the detector reports edit distance 0
(the character-substitution branch), not edit distance 1 as the claim
states. -/
theorem typosquat_amaz0n_distance_zero :
    detect_typosquatting "amaz0n.com" =
      some ⟨"amazon.com", 0, "character_substitution"⟩ ∧
    ((detect_typosquatting "amaz0n.com").map TypoMatch.distance == some 1) = false := by
  exact ⟨by decide, by decide⟩

/-- C2 (amended): when URL parsing fails, `analyze_url` does not raise: it
returns the error record carrying the exception message and the
scheme-prepended URL — not a zero-risk feature record. -/
theorem parse_failure_error_record : ∀ url e : String,
    urlparseHttp (withScheme url) = Except.error e →
    analyze_url url = AnalyzeResult.error e (withScheme url) := by
  intro url e h
  simp [analyze_url, h]

/-- C2 witness: the concrete unparseable input `[`. -/
theorem parse_failure_error_record_witness :
    analyze_url "[" = AnalyzeResult.error "Invalid IPv6 URL" (withScheme "[") :=
  parse_failure_error_record "[" "Invalid IPv6 URL" rfl

/-- C2 counterexample: on the unparseable input `[` the engine returns the
error record, not a zero-risk assessment (no feature record at all). -/
theorem parse_failure_not_zero_risk :
    analyze_url "[" = AnalyzeResult.error "Invalid IPv6 URL" "http://[" ∧
    isOkResult (analyze_url "[") = false := by
  exact ⟨by decide, by decide⟩

/-- C3: a URL whose base domain is literally a trusted registry entry gets no
typosquat match, the typosquat weight contribution is 0, and the final score
is the clamp of the sum of the remaining weights only. -/
theorem trusted_domain_exemption : ∀ (url : String) (f : UrlFeatures),
    analyze_url url = AnalyzeResult.ok f → f.base_domain ∈ POPULAR_DOMAINS →
    f.typosquatting_info = none ∧ typoW f.typosquatting_info = 0 ∧
    f.risk_score = min 100 (nonTypoWeight f) := by
  intro url f h hmem
  obtain ⟨ht, hs, -⟩ := analyze_url_ok_fields url f h
  have hnone : f.typosquatting_info = none := by
    rw [ht]
    exact detect_typosquatting_of_mem _ hmem
  refine ⟨hnone, by rw [hnone]; rfl, ?_⟩
  rw [hs]
  have htw : totalWeight f = nonTypoWeight f := by
    unfold totalWeight nonTypoWeight
    rw [hnone]
    simp [typoW]
  rw [htw]

/-- C3 witness: `https://www.google.com`. -/
theorem trusted_domain_exemption_witness :
    googleFeatures.typosquatting_info = none ∧
    typoW googleFeatures.typosquatting_info = 0 ∧
    googleFeatures.risk_score = min 100 (nonTypoWeight googleFeatures) :=
  trusted_domain_exemption "https://www.google.com" googleFeatures (by decide) (by decide)

/-- C5 (amended): if the base domain equals no trusted entry and the
confusable normalization actually changes the bare label, then whenever the
normalized bare label equals the bare label of some trusted domain (the first
such being `p₀`), the detector returns the zero-distance
`character_substitution` match for `p₀`, overriding any distance-based match
the loop found. -/
theorem char_substitution_priority : ∀ d p₀ : String,
    (∀ p ∈ POPULAR_DOMAINS, d ≠ p) →
    normalize_confusables (typoDomainName d) ≠ typoDomainName d →
    POPULAR_DOMAINS.find?
      (fun p => normalize_confusables (typoDomainName d) == primaryLabel p) = some p₀ →
    detect_typosquatting d = some ⟨p₀, 0, "character_substitution"⟩ := by
  intro d p₀ hne hch hf
  obtain ⟨b, hb⟩ := typoLoop_completes d (typoDomainName d) POPULAR_DOMAINS none hne
  simp [detect_typosquatting, hb, hch, hf]

/-- C5 witness: `paypa1.com` normalizes to the bare label of `paypal.com`. -/
theorem char_substitution_priority_witness :
    detect_typosquatting "paypa1.com" =
      some ⟨"paypal.com", 0, "character_substitution"⟩ :=
  char_substitution_priority "paypa1.com" "paypal.com" (by decide) (by decide) (by decide)

/-- C5 counterexample: `amazon.net` equals no trusted entry and its normalized
bare label equals the bare label of `amazon.com`, yet the detector returns no
match at all — the character-substitution branch only fires when normalization
changes the label. -/
theorem char_substitution_needs_change :
    POPULAR_DOMAINS.all (fun p => "amazon.net" != p) = true ∧
    (normalize_confusables (typoDomainName "amazon.net") == primaryLabel "amazon.com") = true ∧
    "amazon.com" ∈ POPULAR_DOMAINS ∧
    detect_typosquatting "amazon.net" = none := by
  exact ⟨by decide, by decide, by decide, by decide⟩

/-- C8: making a URL at least 25 characters longer, past the 75-character
threshold, with every other extracted feature unchanged, never lowers the
final risk score. -/
theorem length_monotone : ∀ (f : UrlFeatures) (u2 : String) (n2 : Nat),
    f.url_length + 25 ≤ n2 → 75 < n2 →
    (calculate_risk_score f).1 ≤
      (calculate_risk_score { f with url := u2, url_length := n2 }).1 := by
  intro f u2 n2 h25 _h75
  rw [calculate_risk_score_eq, calculate_risk_score_eq]
  have hlen : lenW f.url_length ≤ lenW n2 := by
    unfold lenW
    split_ifs <;> omega
  unfold totalWeight
  dsimp only
  omega

/-- C8 witness: a concrete feature record and a 80-character variant. -/
theorem length_monotone_witness :
    (calculate_risk_score sampleFeatures).1 ≤
      (calculate_risk_score { sampleFeatures with url := "x", url_length := 80 }).1 :=
  length_monotone sampleFeatures "x" 80 (by decide) (by decide)

/-- C4: the URL whose host is `paypal.com` with its first Latin `a` replaced
by the Cyrillic confusable U+0430 produces a homograph finding whose matched
brand is `paypal.com`, and the final risk score is at least 0.50 (50 in
hundredths). -/
theorem homograph_cyrillic_paypal :
    ∃ r, analyze_url "http://pаypal.com" = AnalyzeResult.ok r ∧
      (r.homograph_info.map HomographFinding.matched_brand) = some (some "paypal.com") ∧
      50 ≤ r.risk_score := by
  refine ⟨_, rfl, by decide, by decide⟩

/-- C6: on `http://secure-paypal.com` the brand token `paypal` occurs inside
the base domain without being the domain's own primary label, and the base
domain is untrusted, yet `_detect_brand_impersonation` records no
`domain_fragment` entry (`brand_in_path` is empty; the finding is non-null
only through the deceptive `secure-` pattern): the code requires the brand
NOT to be a substring of the primary label, which a hyphen-appended brand
always is. -/
theorem brand_fragment_hyphen_not_recorded :
    strContains "secure-paypal.com" "paypal" = true ∧
    (primaryLabel "secure-paypal.com" == "paypal") = false ∧
    POPULAR_DOMAINS.contains "secure-paypal.com" = false ∧
    detect_brand_impersonation "http://secure-paypal.com" "secure-paypal.com" "" =
      some ⟨[], [], some "security_keyword_prefix"⟩ := by
  exact ⟨by decide, by decide, by decide, by decide⟩

/-- A list of characters that each lowercase to a single character flattens to
the list of those single characters. -/
theorem flatten_singletons (l : List Char) (h : ∀ c ∈ l, (pyLowerChar c).length = 1) :
    (l.map pyLowerChar).flatten = l.map (fun c => (pyLowerChar c).headD c) := by
  induction l with
  | nil => rfl
  | cons c cs ih =>
      have h1 : (pyLowerChar c).length = 1 := h c (by simp)
      obtain ⟨x, hx⟩ : ∃ x, pyLowerChar c = [x] := by
        cases e : pyLowerChar c with
        | nil => rw [e] at h1; simp at h1
        | cons a t =>
            cases t with
            | nil => exact ⟨a, rfl⟩
            | cons b t2 => rw [e] at h1; simp at h1
      simp [hx, ih (fun d hd => h d (by simp [hd]))]

/-- C9 (amended): on every input string each of whose characters lowercases to
a single character, the normalizer preserves length and maps character `i` to
the `CONFUSABLE_CHARS` image of the lowercased character `i` when that
lowercased character is a key, and to the lowercased character unchanged
otherwise. -/
theorem normalizer_per_char : ∀ s : String,
    (∀ c ∈ s.data, (pyLowerChar c).length = 1) →
    (normalize_confusables s).length = s.length ∧
    (normalize_confusables s).data = s.data.map (fun c =>
      (CONFUSABLE_CHARS.lookup ((pyLowerChar c).headD c)).getD ((pyLowerChar c).headD c)) := by
  intro s h
  have hdata : (normalize_confusables s).data = s.data.map (fun c =>
      (CONFUSABLE_CHARS.lookup ((pyLowerChar c).headD c)).getD ((pyLowerChar c).headD c)) := by
    show (s.data.map pyLowerChar).flatten.map _ = _
    rw [flatten_singletons s.data h, List.map_map]
    rfl
  refine ⟨?_, hdata⟩
  show (normalize_confusables s).data.length = s.data.length
  rw [hdata, List.length_map]

/-- C9 witness: a concrete mixed-case input with a digit substitution. -/
theorem normalizer_per_char_witness :
    (normalize_confusables "PayPal0").length = ("PayPal0" : String).length ∧
    (normalize_confusables "PayPal0").data = ("PayPal0" : String).data.map (fun c =>
      (CONFUSABLE_CHARS.lookup ((pyLowerChar c).headD c)).getD ((pyLowerChar c).headD c)) :=
  normalizer_per_char "PayPal0" (by decide)

/-- C9 counterexample: the dotted capital I lowercases to two characters, so
the normalizer output is longer than its input, refuting the same-length
claim. -/
theorem normalizer_length_change :
    (normalize_confusables "İ").length = 2 ∧ ("İ" : String).length = 1 := by
  exact ⟨by decide, by decide⟩

/-- A domain containing a key of the confusable map yields a nonempty scan. -/
theorem confusableScan_of_key (domain : String) (c : Char) (hc : c ∈ domain.data)
    (hk : (CONFUSABLE_CHARS.lookup c).isSome = true) : confusableScan domain ≠ [] := by
  intro hnil
  have hall := List.filterMap_eq_nil_iff.1 hnil
  have hmem : ∃ i, (i, c) ∈ domain.data.enum := by
    have hm : c ∈ domain.data.enum.map Prod.snd := by
      rw [List.enum_map_snd]
      exact hc
    obtain ⟨⟨i, c'⟩, hp, he⟩ := List.mem_map.1 hm
    cases he
    exact ⟨i, hp⟩
  obtain ⟨i, hi⟩ := hmem
  have hnone := hall (i, c) hi
  cases hl : CONFUSABLE_CHARS.lookup c with
  | none => rw [hl] at hk; simp at hk
  | some v => simp [hl] at hnone

/-- Every homograph finding contributes at least 25 hundredths. -/
theorem homoW_some_ge (h : HomographFinding) : 25 ≤ homoW (some h) := by
  obtain ⟨cc, nd, mb, ms⟩ := h
  cases mb <;> cases ms <;> simp [homoW]

/-- A host containing a confusable-map key always yields a homograph finding
with weight at least 25 hundredths. -/
theorem detect_homograph_of_key (domain : String)
    (h : ∃ c ∈ domain.data, (CONFUSABLE_CHARS.lookup c).isSome = true) :
    (detect_homograph_attack domain).isSome = true ∧
      25 ≤ homoW (detect_homograph_attack domain) := by
  obtain ⟨c, hc, hk⟩ := h
  have hne := confusableScan_of_key domain c hc hk
  have hemp : (confusableScan domain).isEmpty = false := by
    cases e : confusableScan domain with
    | nil => exact absurd e hne
    | cons a t => rfl
  unfold detect_homograph_attack
  simp only [hemp, Bool.false_eq_true, if_false]
  exact ⟨rfl, homoW_some_ge _⟩

/-- C10 (amended): every host containing a character that is a key of the
confusable map — in particular any of the digits other than 6 — receives a
homograph finding, and the aggregator adds at least +0.25 (25 hundredths) for
it.  (The unamended claim's "every numeric IP-literal host" fails because the
digit 6 and the dot are not keys.) -/
theorem confusable_key_homograph :
    (∀ domain : String, (∃ c ∈ domain.data, (CONFUSABLE_CHARS.lookup c).isSome = true) →
      (detect_homograph_attack domain).isSome = true ∧
        25 ≤ homoW (detect_homograph_attack domain)) ∧
    (∀ domain : String,
      (∃ c ∈ domain.data, c ∈ ['0', '1', '2', '3', '4', '5', '7', '8', '9']) →
      (detect_homograph_attack domain).isSome = true ∧
        25 ≤ homoW (detect_homograph_attack domain)) := by
  refine ⟨fun d h => detect_homograph_of_key d h, ?_⟩
  rintro d ⟨c, hc, hmem⟩
  apply detect_homograph_of_key
  refine ⟨c, hc, ?_⟩
  fin_cases hmem <;> decide

/-- C10 witness: a host whose only non-6 digit is 7. -/
theorem confusable_key_homograph_witness :
    (detect_homograph_attack "6.6.6.7").isSome = true ∧
      25 ≤ homoW (detect_homograph_attack "6.6.6.7") :=
  confusable_key_homograph.2 "6.6.6.7" ⟨'7', by decide, by decide⟩

/-- C10 counterexample: `http://6.66.66.6` has a numeric IP-literal host (so
the IP flag is set) but contains no confusable-map key, so its analysis has no
homograph finding at all. -/
theorem ip_literal_no_homograph :
    ipFlagOf (analyze_url "http://6.66.66.6") = some true ∧
    homographInfoOf (analyze_url "http://6.66.66.6") = some none := by
  exact ⟨by decide, by decide⟩

/-- Appending to a string does not change its `data` concatenation. -/
theorem strData_append (p d : String) : (p ++ d).data = p.data ++ d.data := rfl

/-- `factorTag` only looks at the first twelve characters. -/
theorem factorTag_of_take (s t : String) (h : s.data.take 12 = t.data.take 12) :
    factorTag s = factorTag t := by
  unfold factorTag
  rw [h]

/-- `factorTag` of a string with a fixed prefix of at least twelve characters
is the tag of that prefix. -/
theorem factorTag_append (p d : String) (h : 12 ≤ p.data.length) :
    factorTag (p ++ d) = factorTag p := by
  apply factorTag_of_take
  rw [strData_append]
  exact List.take_append_of_le_length h

/-- String concatenation is associative (via the underlying character
lists). -/
theorem strAppend_assoc (a b c : String) : a ++ b ++ c = a ++ (b ++ c) :=
  congrArg String.mk (List.append_assoc a.data b.data c.data)

/-- A list of length at most one is strictly sorted under any measure. -/
theorem pairwise_of_len_le_one {l : List String} (h : l.length ≤ 1) : TagSorted l := by
  match l with
  | [] => exact List.Pairwise.nil
  | [x] => exact List.pairwise_singleton _ _
  | x :: y :: t => simp at h

/-- One step of the factor-list cascade: a sorted prefix whose tags are all
below `k`, extended by a slot of at most one string with tag exactly `k`. -/
theorem goodStep {l r : List String} {k : Nat}
    (hl : TagUB k l ∧ TagSorted l)
    (hlen : r.length ≤ 1) (hr : ∀ s ∈ r, factorTag s = k) :
    TagUB (k + 1) (l ++ r) ∧ TagSorted (l ++ r) := by
  constructor
  · intro s hs
    rcases List.mem_append.1 hs with hm | hm
    · exact Nat.lt_trans (hl.1 s hm) (Nat.lt_succ_self k)
    · rw [hr s hm]
      exact Nat.lt_succ_self k
  · unfold TagSorted
    rw [List.pairwise_append]
    refine ⟨hl.2, pairwise_of_len_le_one hlen, fun a ha b hb => ?_⟩
    rw [hr b hb]
    exact hl.1 a ha

/-- The length-tier slot emits at most one string. -/
theorem len_lenF (n : Nat) : (lenF n).length ≤ 1 := by
  unfold lenF
  split_ifs <;> simp

/-- Length-tier strings carry tag 0. -/
theorem tag_lenF (n : Nat) : ∀ s ∈ lenF n, factorTag s = 0 := by
  intro s hs
  unfold lenF at hs
  split_ifs at hs <;> simp at hs <;> subst hs <;> decide

/-- The HTTPS slot emits at most one string. -/
theorem len_httpsF (b : Bool) : (httpsF b).length ≤ 1 := by
  cases b <;> simp [httpsF]

/-- HTTPS strings carry tag 1. -/
theorem tag_httpsF (b : Bool) : ∀ s ∈ httpsF b, factorTag s = 1 := by
  intro s hs
  cases b
  · simp [httpsF] at hs
    subst hs
    decide
  · simp [httpsF] at hs

/-- The IP slot emits at most one string. -/
theorem len_ipF (b : Bool) : (ipF b).length ≤ 1 := by
  cases b <;> simp [ipF]

/-- IP strings carry tag 2. -/
theorem tag_ipF (b : Bool) : ∀ s ∈ ipF b, factorTag s = 2 := by
  intro s hs
  cases b
  · simp [ipF] at hs
  · simp [ipF] at hs
    subst hs
    decide

/-- The `@`-symbol slot emits at most one string. -/
theorem len_atF (b : Bool) : (atF b).length ≤ 1 := by
  cases b <;> simp [atF]

/-- `@`-symbol strings carry tag 3. -/
theorem tag_atF (b : Bool) : ∀ s ∈ atF b, factorTag s = 3 := by
  intro s hs
  cases b
  · simp [atF] at hs
  · simp [atF] at hs
    subst hs
    decide

/-- The redirect slot emits at most one string. -/
theorem len_redirF (b : Bool) : (redirF b).length ≤ 1 := by
  cases b <;> simp [redirF]

/-- Redirect strings carry tag 4. -/
theorem tag_redirF (b : Bool) : ∀ s ∈ redirF b, factorTag s = 4 := by
  intro s hs
  cases b
  · simp [redirF] at hs
  · simp [redirF] at hs
    subst hs
    decide

/-- The hyphen slot emits at most one string. -/
theorem len_hyphF (b : Bool) : (hyphF b).length ≤ 1 := by
  cases b <;> simp [hyphF]

/-- Hyphen strings carry tag 5. -/
theorem tag_hyphF (b : Bool) : ∀ s ∈ hyphF b, factorTag s = 5 := by
  intro s hs
  cases b
  · simp [hyphF] at hs
  · simp [hyphF] at hs
    subst hs
    decide

/-- The underscore slot emits at most one string. -/
theorem len_undF (b : Bool) : (undF b).length ≤ 1 := by
  cases b <;> simp [undF]

/-- Underscore strings carry tag 6. -/
theorem tag_undF (b : Bool) : ∀ s ∈ undF b, factorTag s = 6 := by
  intro s hs
  cases b
  · simp [undF] at hs
  · simp [undF] at hs
    subst hs
    decide

/-- The path slot emits at most one string. -/
theorem len_pathF (dot dbl : Bool) : (pathF dot dbl).length ≤ 1 := by
  unfold pathF
  split_ifs <;> simp

/-- Path strings carry tag 7. -/
theorem tag_pathF (dot dbl : Bool) : ∀ s ∈ pathF dot dbl, factorTag s = 7 := by
  intro s hs
  unfold pathF at hs
  split_ifs at hs <;> simp at hs
  subst hs
  decide

/-- The keyword slot emits at most one string. -/
theorem len_kwF (kws : List String) : (kwF kws).length ≤ 1 := by
  unfold kwF
  split_ifs <;> simp

/-- Keyword strings carry tag 8. -/
theorem tag_kwF (kws : List String) : ∀ s ∈ kwF kws, factorTag s = 8 := by
  intro s hs
  unfold kwF at hs
  split_ifs at hs <;> simp at hs
  subst hs
  rw [factorTag_append "Suspicious keywords: " _ (by decide)]
  decide

/-- The TLD slot emits at most one string. -/
theorem len_tldF (b : Bool) : (tldF b).length ≤ 1 := by
  cases b <;> simp [tldF]

/-- TLD strings carry tag 9. -/
theorem tag_tldF (b : Bool) : ∀ s ∈ tldF b, factorTag s = 9 := by
  intro s hs
  cases b
  · simp [tldF] at hs
  · simp [tldF] at hs
    subst hs
    decide

/-- The subdomain slot emits at most one string. -/
theorem len_subF (n : Nat) : (subF n).length ≤ 1 := by
  unfold subF
  split_ifs <;> simp

/-- Subdomain strings carry tag 10. -/
theorem tag_subF (n : Nat) : ∀ s ∈ subF n, factorTag s = 10 := by
  intro s hs
  unfold subF at hs
  split_ifs at hs <;> simp at hs <;> subst hs <;> simp only [strAppend_assoc]
  · rw [factorTag_append "Many subdomains (" _ (by decide)]
    decide
  · rw [factorTag_append "Multiple subdomains (" _ (by decide)]
    decide

/-- The port slot emits at most one string. -/
theorem len_portF (b : Bool) : (portF b).length ≤ 1 := by
  cases b <;> simp [portF]

/-- Port strings carry tag 11. -/
theorem tag_portF (b : Bool) : ∀ s ∈ portF b, factorTag s = 11 := by
  intro s hs
  cases b
  · simp [portF] at hs
  · simp [portF] at hs
    subst hs
    decide

/-- The punycode slot emits at most one string. -/
theorem len_punyF (b : Bool) : (punyF b).length ≤ 1 := by
  cases b <;> simp [punyF]

/-- Punycode strings carry tag 12. -/
theorem tag_punyF (b : Bool) : ∀ s ∈ punyF b, factorTag s = 12 := by
  intro s hs
  cases b
  · simp [punyF] at hs
  · simp [punyF] at hs
    subst hs
    decide

/-- The typosquat slot emits at most one string. -/
theorem len_typoF (o : Option TypoMatch) : (typoF o).length ≤ 1 := by
  cases o with
  | none => simp [typoF]
  | some t =>
      simp only [typoF]
      split_ifs <;> simp

/-- Typosquat strings carry tag 13. -/
theorem tag_typoF (o : Option TypoMatch) : ∀ s ∈ typoF o, factorTag s = 13 := by
  intro s hs
  cases o with
  | none => simp [typoF] at hs
  | some t =>
      simp only [typoF] at hs
      split_ifs at hs <;> simp at hs <;> subst hs <;> simp only [strAppend_assoc]
      · rw [factorTag_append "TYPOSQUATTING: Very similar to " _ (by decide)]
        decide
      · rw [factorTag_append "TYPOSQUATTING: Similar to " _ (by decide)]
        decide

/-- The homograph slot emits at most one string. -/
theorem len_homoF (o : Option HomographFinding) : (homoF o).length ≤ 1 := by
  cases o with
  | none => simp [homoF]
  | some h =>
      obtain ⟨cc, nd, mb, ms⟩ := h
      cases mb <;> cases ms <;> simp [homoF]

/-- Homograph strings carry tag 14. -/
theorem tag_homoF (o : Option HomographFinding) : ∀ s ∈ homoF o, factorTag s = 14 := by
  intro s hs
  cases o with
  | none => simp [homoF] at hs
  | some h =>
      obtain ⟨cc, nd, mb, ms⟩ := h
      cases mb with
      | some b =>
          simp [homoF] at hs
          subst hs
          rw [factorTag_append
            "HOMOGRAPH ATTACK: Uses lookalike characters to impersonate " _ (by decide)]
          decide
      | none =>
          cases ms <;> simp [homoF] at hs <;> subst hs <;> decide

/-- The brand-in-subdomain slot emits at most one string. -/
theorem len_bsubF (o : Option ImpersonationFinding) : (bsubF o).length ≤ 1 := by
  cases o with
  | none => simp [bsubF]
  | some imp =>
      simp only [bsubF]
      split_ifs <;> simp

/-- Brand-in-subdomain strings carry tag 15. -/
theorem tag_bsubF (o : Option ImpersonationFinding) : ∀ s ∈ bsubF o, factorTag s = 15 := by
  intro s hs
  cases o with
  | none => simp [bsubF] at hs
  | some imp =>
      simp only [bsubF] at hs
      split_ifs at hs <;> simp at hs
      subst hs
      simp only [strAppend_assoc]
      rw [factorTag_append "BRAND IMPERSONATION: '" _ (by decide)]
      decide

/-- The brand-in-path slot emits at most one string. -/
theorem len_bpathF (o : Option ImpersonationFinding) : (bpathF o).length ≤ 1 := by
  cases o with
  | none => simp [bpathF]
  | some imp =>
      simp only [bpathF]
      split_ifs <;> simp

/-- Brand-in-path strings carry tag 16. -/
theorem tag_bpathF (o : Option ImpersonationFinding) : ∀ s ∈ bpathF o, factorTag s = 16 := by
  intro s hs
  cases o with
  | none => simp [bpathF] at hs
  | some imp =>
      simp only [bpathF] at hs
      split_ifs at hs <;> simp at hs
      subst hs
      rw [factorTag_append "Brand name in URL path: " _ (by decide)]
      decide

/-- The deceptive-pattern slot emits at most one string. -/
theorem len_decpF (o : Option ImpersonationFinding) : (decpF o).length ≤ 1 := by
  cases o with
  | none => simp [decpF]
  | some imp => cases himp : imp.deceptive_pattern <;> simp [decpF, himp]

/-- Deceptive-pattern strings carry tag 17. -/
theorem tag_decpF (o : Option ImpersonationFinding) : ∀ s ∈ decpF o, factorTag s = 17 := by
  intro s hs
  cases o with
  | none => simp [decpF] at hs
  | some imp =>
      obtain ⟨bs, bp, dp⟩ := imp
      cases dp with
      | none => simp [decpF] at hs
      | some p =>
          simp [decpF] at hs
          subst hs
          rw [factorTag_append "Deceptive URL pattern: " _ (by decide)]
          decide

/-- The factor list is strictly increasing under `factorTag`: each aggregator
condition emits at most one string, and the twelve-character fingerprints of
the strings the conditions can emit identify the emitting condition. -/
theorem factorsList_tagSorted (f : UrlFeatures) :
    TagUB 18 (factorsList f) ∧ TagSorted (factorsList f) := by
  have h0 : TagUB 1 (lenF f.url_length) ∧ TagSorted (lenF f.url_length) :=
    ⟨fun s hs => by rw [tag_lenF _ s hs]; exact Nat.lt_succ_self 0,
      pairwise_of_len_le_one (len_lenF _)⟩
  have h1 := goodStep h0 (len_httpsF f.has_https) (tag_httpsF _)
  have h2 := goodStep h1 (len_ipF f.has_ip_address) (tag_ipF _)
  have h3 := goodStep h2 (len_atF f.has_at_symbol) (tag_atF _)
  have h4 := goodStep h3 (len_redirF f.has_redirect) (tag_redirF _)
  have h5 := goodStep h4 (len_hyphF f.has_hyphen) (tag_hyphF _)
  have h6 := goodStep h5 (len_undF f.has_underscore) (tag_undF _)
  have h7 := goodStep h6 (len_pathF f.has_dot_in_path f.has_double_slash) (tag_pathF _ _)
  have h8 := goodStep h7 (len_kwF f.suspicious_keywords) (tag_kwF _)
  have h9 := goodStep h8 (len_tldF f.suspicious_tld) (tag_tldF _)
  have h10 := goodStep h9 (len_subF f.subdomain_count) (tag_subF _)
  have h11 := goodStep h10 (len_portF f.has_port) (tag_portF _)
  have h12 := goodStep h11 (len_punyF f.is_punycode) (tag_punyF _)
  have h13 := goodStep h12 (len_typoF f.typosquatting_info) (tag_typoF _)
  have h14 := goodStep h13 (len_homoF f.homograph_info) (tag_homoF _)
  have h15 := goodStep h14 (len_bsubF f.brand_impersonation_info) (tag_bsubF _)
  have h16 := goodStep h15 (len_bpathF f.brand_impersonation_info) (tag_bpathF _)
  have h17 := goodStep h16 (len_decpF f.brand_impersonation_info) (tag_decpF _)
  exact h17

/-- The factor list never contains two identical strings. -/
theorem factorsList_nodup (f : UrlFeatures) : (factorsList f).Nodup := by
  have hs := (factorsList_tagSorted f).2
  exact hs.imp (fun hab heq => absurd (heq ▸ hab) (lt_irrefl _))

/-- C7: the aggregator's score is the plain sum of the fixed weights of the
triggered conditions, clamped to 1.0 (here 100 hundredths) exactly once at the
very end — so it always lies in [0, 1] (in `Nat` hundredths, at most 100) —
and its factor list is the concatenation of the per-condition strings in
evaluation order, with no two identical strings in one analysis. -/
theorem aggregator_clamp_order_nodup : ∀ f : UrlFeatures,
    calculate_risk_score f = (min 100 (totalWeight f), factorsList f) ∧
    (calculate_risk_score f).1 ≤ 100 ∧
    (calculate_risk_score f).2.Nodup := by
  intro f
  refine ⟨calculate_risk_score_eq f, ?_, ?_⟩
  · rw [calculate_risk_score_eq]
    exact Nat.min_le_left _ _
  · rw [calculate_risk_score_eq]
    exact factorsList_nodup f
